import Mathlib

set_option maxHeartbeats 1000000

/-!
Shallow embedding of the webhook-porto repository (Tech4 webhook receiver).

The repository has two source handlers:
* `src/src/webhook/webhook_server.py` — in-memory variant: a process-wide
  dict `WEBHOOK_STORE` (latest record per serviceId) and a set
  `PROCESSED_EVENT_IDS` of already-seen event ids.  The Python dict is
  insertion-ordered, so it is embedded as an association list where an
  assignment to an existing key replaces the value in place and an
  assignment to a fresh key appends at the tail.
* `src/src/webhook/redis_webhook_server.py` — Redis variant: keys
  `tech4:event:{id}` (idempotency marks) and `tech4:session:{serviceId}`
  (latest record, JSON-serialised), written with `setex` so every entry
  carries an absolute expiry instant.  Redis is embedded as a list of
  entries (key, value, expireAt) with an explicit `now : Nat` clock
  threaded through each operation; an entry is visible only while
  `now < expireAt`, exactly Redis's expiry semantics.

Wall-clock ISO timestamps (`utc_now_iso`) are opaque strings supplied by
the caller, since the handlers only ever copy them into records.
-/

/-- The inner `data` object of a CloudEvents message
(`MessageData`, webhook_server.py lines 39-46 and
redis_webhook_server.py lines 28-35).  The source field `by`
is embedded as `sentBy` because `by` is a Lean keyword; `text` is
`Optional[str] = None` in the source, hence `Option String`. -/
structure MessageData where
  id : String
  type : String
  createdAt : String
  sentAt : String
  sentBy : String
  serviceId : String
  text : Option String
deriving DecidableEq, Repr

/-- The CloudEvents envelope (`CloudEventMessage`, webhook_server.py
lines 49-57 and redis_webhook_server.py lines 38-46). -/
structure CloudEventMessage where
  specversion : String
  id : String
  type : String
  source : String
  subject : String
  time : String
  datacontenttype : String
  data : MessageData
deriving DecidableEq, Repr

/-- The record persisted per serviceId.  Its fields are exactly the keys of
the dict built at webhook_server.py lines 126-136 / the `payload` dict at
redis_webhook_server.py lines 96-106 (`by` embedded as `sentBy`). -/
structure StoredRecord where
  service_id : String
  event_id : String
  message_id : String
  text : String
  sentBy : String
  created_at : String
  sent_at : String
  received_at : String
  raw : CloudEventMessage
deriving DecidableEq, Repr

/-- Embedding of Python's `event.data.text or ""`
(webhook_server.py line 130, redis_webhook_server.py line 100):
`None` and the empty string are falsy, so both yield `""`. -/
def pyTextOr (t : Option String) : String :=
  match t with
  | some s => if s = "" then "" else s
  | none => ""

/-- Result of a DELETE endpoint: the success body carries the service id;
`notFound` stands for the raised HTTPException with status 404. -/
inductive DeleteResult where
  | deleted (service_id : String)
  | notFound
deriving DecidableEq, Repr

/-! ## In-memory variant (webhook_server.py) -/

/-- Dict lookup `m.get(k)` for the insertion-ordered association list. -/
def dictGet (m : List (String × StoredRecord)) (k : String) : Option StoredRecord :=
  match m with
  | [] => none
  | (k', v) :: rest => if k' = k then some v else dictGet rest k

/-- Dict assignment `m[k] = v`: replaces in place if the key is present
(keeping its position, as a Python dict does), otherwise appends. -/
def dictInsert (m : List (String × StoredRecord)) (k : String) (v : StoredRecord) :
    List (String × StoredRecord) :=
  match m with
  | [] => [(k, v)]
  | (k', v') :: rest =>
    if k' = k then (k, v) :: rest else (k', v') :: dictInsert rest k v

/-- Dict deletion `del m[k]`. -/
def dictRemove (m : List (String × StoredRecord)) (k : String) :
    List (String × StoredRecord) :=
  m.filter (fun p => ! (p.1 == k))

/-- The process-wide mutable state of the in-memory variant:
`WEBHOOK_STORE` (line 27) and `PROCESSED_EVENT_IDS` (line 34). -/
structure MemState where
  store : List (String × StoredRecord)
  processed : List String
deriving DecidableEq, Repr

/-- The empty initial state of the in-memory variant. -/
def mem0 : MemState := { store := [], processed := [] }

/-- Response body of the in-memory webhook endpoint: `{"status": ...}` with
an optional `"reason"` key (absent ⟷ `none`). -/
structure MemResponse where
  status : String
  reason : Option String
deriving DecidableEq, Repr

/-- The in-memory webhook handler `tech4_webhook`
(webhook_server.py lines 107-138).  `now` is the `utc_now_iso()` stamp.
Returns the response body and the updated state. -/
def tech4_webhook (st : MemState) (now : String) (event : CloudEventMessage) :
    MemResponse × MemState :=
  if event.type ≠ "amber.service:conversation:message" then
    ({ status := "ignored", reason := none }, st)
  else if event.id ∈ st.processed then
    ({ status := "ignored", reason := some "duplicate event" }, st)
  else
    let st1 : MemState := { st with processed := event.id :: st.processed }
    if event.data.type ≠ "text" then
      ({ status := "ignored", reason := none }, st1)
    else
      let service_id := event.data.serviceId
      let record : StoredRecord :=
        { service_id := service_id
          event_id := event.id
          message_id := event.data.id
          text := pyTextOr event.data.text
          sentBy := event.data.sentBy
          created_at := event.data.createdAt
          sent_at := event.data.sentAt
          received_at := now
          raw := event }
      ({ status := "ok", reason := none },
        { st1 with store := dictInsert st1.store service_id record })

/-- `get_latest_event_or_404` (webhook_server.py lines 66-73), also the body
of GET `/sessions/{session_id}/latest`; `none` stands for the 404. -/
def get_latest_event_or_404 (st : MemState) (service_id : String) :
    Option StoredRecord :=
  dictGet st.store service_id

/-- DELETE `/sessions/{session_id}` (`delete_session`,
webhook_server.py lines 161-171). -/
def delete_session (st : MemState) (session_id : String) :
    DeleteResult × MemState :=
  if (dictGet st.store session_id).isSome then
    (DeleteResult.deleted session_id, { st with store := dictRemove st.store session_id })
  else
    (DeleteResult.notFound, st)

/-- GET `/sessions` (`list_sessions`, webhook_server.py lines 179-181):
`keys = list(WEBHOOK_STORE.keys())[: max(1, min(limit, 500))]`;
returns `(count, service_ids)`.  `limit` is a Python int, hence `Int`. -/
def list_sessions (st : MemState) (limit : Int) : Nat × List String :=
  let keys := (st.store.map Prod.fst).take (max 1 (min limit 500)).toNat
  (keys.length, keys)

/-- The in-memory store performs no expiry and `get_latest_event_or_404`
never consults a clock (webhook_server.py lines 27-34 and 66-73), so a
lookup at any instant `_t` is the plain lookup. -/
def mem_lookup_at (st : MemState) (service_id : String) (_t : Nat) :
    Option StoredRecord :=
  get_latest_event_or_404 st service_id

/-! ## Redis variant (redis_webhook_server.py) -/

/-- A value stored under a Redis key: the idempotency marks hold the plain
string `"1"`; session keys hold `json.dumps(payload)`, embedded as the
payload record itself (`json.loads ∘ json.dumps` is the identity on it). -/
inductive RVal where
  | str (s : String)
  | json (r : StoredRecord)
deriving DecidableEq, Repr

/-- One Redis entry: key, value, and the absolute instant at which the
key expires (set by `setex` to write-time + TTL). -/
structure RedisEntry where
  key : String
  val : RVal
  expireAt : Nat
deriving DecidableEq, Repr

/-- `REDIS_TTL_SECONDS` default (redis_webhook_server.py line 16). -/
def REDIS_TTL_SECONDS : Nat := 86400

/-- `k_event` (redis_webhook_server.py lines 56-57). -/
def k_event (event_id : String) : String := "tech4:event:" ++ event_id

/-- `k_session` (redis_webhook_server.py lines 60-61). -/
def k_session (service_id : String) : String := "tech4:session:" ++ service_id

/-- `redis.get(k)` at instant `now`: the first entry for the key is the
current one; it is visible only while `now < expireAt`. -/
def rget (db : List RedisEntry) (now : Nat) (k : String) : Option RVal :=
  match db with
  | [] => none
  | e :: rest =>
    if e.key = k then (if now < e.expireAt then some e.val else none)
    else rget rest now k

/-- `redis.exists(k)` at instant `now`. -/
def rexists (db : List RedisEntry) (now : Nat) (k : String) : Bool :=
  (rget db now k).isSome

/-- `redis.setex(k, ttl, v)` at instant `now`: (re)binds the key to `v`
with expiry `now + ttl`. -/
def rsetex (db : List RedisEntry) (now : Nat) (k : String) (ttl : Nat) (v : RVal) :
    List RedisEntry :=
  match db with
  | [] => [{ key := k, val := v, expireAt := now + ttl }]
  | e :: rest =>
    if e.key = k then { key := k, val := v, expireAt := now + ttl } :: rest
    else e :: rsetex rest now k ttl v

/-- `redis.delete(k)` at instant `now`: removes the key and returns the
number of live keys removed (0 when the key is absent or expired). -/
def rdelete (db : List RedisEntry) (now : Nat) (k : String) :
    Nat × List RedisEntry :=
  ((if rexists db now k then 1 else 0), db.filter (fun e => ! (e.key == k)))

/-- Response body of the Redis webhook endpoint.  The source returns dicts
with different key sets; absent keys are `none`. -/
structure RedisResponse where
  status : String
  reason : Option String
  backend : Option String
  service_id : Option String
  ttl_seconds : Option Nat
deriving DecidableEq, Repr

/-- The Redis webhook handler `tech4_webhook_redis`
(redis_webhook_server.py lines 81-110).  `now` is the clock instant used
for every Redis call of the request, `nowIso` the `utc_now_iso()` stamp,
`ttl` the configured `REDIS_TTL_SECONDS`. -/
def tech4_webhook_redis (db : List RedisEntry) (now : Nat) (nowIso : String)
    (ttl : Nat) (event : CloudEventMessage) : RedisResponse × List RedisEntry :=
  if event.type ≠ "amber.service:conversation:message" then
    ({ status := "ignored", reason := some "unsupported type",
       backend := none, service_id := none, ttl_seconds := none }, db)
  else if rexists db now (k_event event.id) then
    ({ status := "ignored", reason := some "duplicate event",
       backend := none, service_id := none, ttl_seconds := none }, db)
  else
    let db1 := rsetex db now (k_event event.id) ttl (RVal.str "1")
    if event.data.type ≠ "text" then
      ({ status := "ignored", reason := some "unsupported data.type",
         backend := none, service_id := none, ttl_seconds := none }, db1)
    else
      let service_id := event.data.serviceId
      let payload : StoredRecord :=
        { service_id := service_id
          event_id := event.id
          message_id := event.data.id
          text := pyTextOr event.data.text
          sentBy := event.data.sentBy
          created_at := event.data.createdAt
          sent_at := event.data.sentAt
          received_at := nowIso
          raw := event }
      let db2 := rsetex db1 now (k_session service_id) ttl (RVal.json payload)
      ({ status := "stored", reason := none, backend := some "redis",
         service_id := some service_id, ttl_seconds := some ttl }, db2)

/-- GET `/redis/sessions/{service_id}/latest` (`get_latest_session_redis`,
redis_webhook_server.py lines 117-121); `none` stands for the 404. -/
def get_latest_session_redis (db : List RedisEntry) (now : Nat)
    (service_id : String) : Option RVal :=
  rget db now (k_session service_id)

/-- DELETE `/redis/sessions/{service_id}` (`delete_session_redis`,
redis_webhook_server.py lines 125-129). -/
def delete_session_redis (db : List RedisEntry) (now : Nat)
    (service_id : String) : DeleteResult × List RedisEntry :=
  let d := rdelete db now (k_session service_id)
  if d.1 ≠ 0 then (DeleteResult.deleted service_id, d.2)
  else (DeleteResult.notFound, d.2)

/-! ## Sample data used by witnesses and counterexamples -/

/-- A well-formed text message `data` object (the spec's §8 scenario). -/
def dGood : MessageData :=
  { id := "m1", type := "text", createdAt := "2024-01-01T00:00:00Z",
    sentAt := "2024-01-01T00:00:01Z", sentBy := "user",
    serviceId := "svc1", text := some "hi" }

/-- The spec's §8 scenario event: supported type, text data, id `e1`. -/
def evGood : CloudEventMessage :=
  { specversion := "1.0", id := "e1",
    type := "amber.service:conversation:message", source := "tech4",
    subject := "conv", time := "2024-01-01T00:00:01Z",
    datacontenttype := "application/json", data := dGood }

/-- Same event id `e1` but an unsupported event type. -/
def evBadType : CloudEventMessage := { evGood with type := "other" }

/-- Same event id `e1` but different data (a second, distinct message). -/
def evGood2 : CloudEventMessage :=
  { evGood with data := { dGood with id := "m2", text := some "bye" } }

/-- Fresh event id `e9`, supported event type, but `data.type = "image"`. -/
def evImage : CloudEventMessage :=
  { evGood with id := "e9", data := { dGood with type := "image" } }

/-- The in-memory state after ingesting the scenario event into `mem0`. -/
def memAfterGood : MemState := (tech4_webhook mem0 "t0" evGood).2

example : (tech4_webhook mem0 "t0" evGood).1 = { status := "ok", reason := none } := by decide
example : (get_latest_event_or_404 memAfterGood "svc1").isSome = true := by decide

/-! ## Helper lemmas -/

theorem pyTextOr_some (t : String) : pyTextOr (some t) = t := by
  by_cases h : t = "" <;> simp [pyTextOr, h]

theorem pyTextOr_eq_getD (o : Option String) : pyTextOr o = o.getD "" := by
  cases o with
  | none => rfl
  | some t => simp [pyTextOr_some]

theorem dictGet_insert_self (m : List (String × StoredRecord)) (k : String)
    (v : StoredRecord) : dictGet (dictInsert m k v) k = some v := by
  induction m with
  | nil => simp [dictInsert, dictGet]
  | cons p rest ih =>
    by_cases h : p.1 = k <;> simp [dictInsert, dictGet, h, ih]

theorem dictGet_remove_self (m : List (String × StoredRecord)) (k : String) :
    dictGet (dictRemove m k) k = none := by
  induction m with
  | nil => rfl
  | cons p rest ih =>
    simp only [dictRemove, List.filter_cons] at ih ⊢
    by_cases h : p.1 = k
    · simpa [h] using ih
    · simpa [h, dictGet] using ih

theorem dictInsert_keys (m : List (String × StoredRecord)) (k : String)
    (v : StoredRecord) :
    (dictInsert m k v).map Prod.fst =
      if (dictGet m k).isSome then m.map Prod.fst else m.map Prod.fst ++ [k] := by
  induction m with
  | nil => simp [dictInsert, dictGet]
  | cons p rest ih =>
    by_cases h : p.1 = k
    · simp [dictInsert, dictGet, h]
    · simp only [dictInsert, dictGet, h, if_neg, ite_false, List.map_cons, ih]
      by_cases h2 : (dictGet rest k).isSome <;> simp [h2]

theorem rget_rsetex_self (db : List RedisEntry) (τ now ttl : Nat) (k : String)
    (v : RVal) :
    rget (rsetex db τ k ttl v) now k =
      if now < τ + ttl then some v else none := by
  induction db with
  | nil => simp [rsetex, rget]
  | cons e rest ih =>
    by_cases h : e.key = k <;> simp [rsetex, rget, h, ih]

theorem rget_rsetex_ne (db : List RedisEntry) (τ now ttl : Nat) (k k' : String)
    (v : RVal) (h : k' ≠ k) :
    rget (rsetex db τ k ttl v) now k' = rget db now k' := by
  have hk : k ≠ k' := Ne.symm h
  induction db with
  | nil => simp [rsetex, rget, hk]
  | cons e rest ih =>
    by_cases he : e.key = k
    · simp [rsetex, rget, he, hk]
    · by_cases he' : e.key = k' <;> simp [rsetex, rget, he, he', ih, h]

theorem rget_filter_self (db : List RedisEntry) (now : Nat) (k : String) :
    rget (db.filter (fun e => ! (e.key == k))) now k = none := by
  induction db with
  | nil => rfl
  | cons e rest ih =>
    simp only [List.filter_cons] at ih ⊢
    by_cases h : e.key = k
    · simpa [h] using ih
    · simpa [h, rget] using ih

theorem k_event_ne_k_session (a b : String) : k_event a ≠ k_session b := by
  intro h
  have h3 : ((k_event a).data.get? 6) = ((k_session b).data.get? 6) :=
    congrArg (fun s => s.data.get? 6) h
  have h4 : (some 'e' : Option Char) = some 's' := h3
  simp at h4

/-- The record both handlers build for an accepted event (webhook_server.py
lines 126-136, redis_webhook_server.py lines 96-106), with `stamp` the
`utc_now_iso()` value; named here for reuse in statements. -/
def ingestRecord (e : CloudEventMessage) (stamp : String) : StoredRecord :=
  { service_id := e.data.serviceId, event_id := e.id,
    message_id := e.data.id, text := pyTextOr e.data.text,
    sentBy := e.data.sentBy, created_at := e.data.createdAt,
    sent_at := e.data.sentAt, received_at := stamp, raw := e }

/-! ### One lemma per branch of each handler -/

theorem tech4_webhook_badtype (st : MemState) (now : String)
    (e : CloudEventMessage) (h : e.type ≠ "amber.service:conversation:message") :
    tech4_webhook st now e = ({ status := "ignored", reason := none }, st) := by
  simp [tech4_webhook, h]

theorem tech4_webhook_dup (st : MemState) (now : String)
    (e : CloudEventMessage) (htype : e.type = "amber.service:conversation:message")
    (hin : e.id ∈ st.processed) :
    tech4_webhook st now e =
      ({ status := "ignored", reason := some "duplicate event" }, st) := by
  simp [tech4_webhook, htype, hin]

theorem tech4_webhook_baddata (st : MemState) (now : String)
    (e : CloudEventMessage) (htype : e.type = "amber.service:conversation:message")
    (hfresh : e.id ∉ st.processed) (hdt : e.data.type ≠ "text") :
    tech4_webhook st now e =
      ({ status := "ignored", reason := none },
       { st with processed := e.id :: st.processed }) := by
  simp [tech4_webhook, htype, hfresh, hdt]

theorem tech4_webhook_accept (st : MemState) (now : String)
    (e : CloudEventMessage) (htype : e.type = "amber.service:conversation:message")
    (hfresh : e.id ∉ st.processed) (hdt : e.data.type = "text") :
    tech4_webhook st now e =
      ({ status := "ok", reason := none },
       { store := dictInsert st.store e.data.serviceId (ingestRecord e now),
         processed := e.id :: st.processed }) := by
  simp [tech4_webhook, htype, hfresh, hdt, ingestRecord]

theorem tech4_webhook_redis_badtype (db : List RedisEntry) (now : Nat)
    (iso : String) (ttl : Nat) (e : CloudEventMessage)
    (h : e.type ≠ "amber.service:conversation:message") :
    tech4_webhook_redis db now iso ttl e =
      ({ status := "ignored", reason := some "unsupported type",
         backend := none, service_id := none, ttl_seconds := none }, db) := by
  simp [tech4_webhook_redis, h]

theorem tech4_webhook_redis_dup (db : List RedisEntry) (now : Nat)
    (iso : String) (ttl : Nat) (e : CloudEventMessage)
    (htype : e.type = "amber.service:conversation:message")
    (hex : rexists db now (k_event e.id) = true) :
    tech4_webhook_redis db now iso ttl e =
      ({ status := "ignored", reason := some "duplicate event",
         backend := none, service_id := none, ttl_seconds := none }, db) := by
  simp [tech4_webhook_redis, htype, hex]

theorem tech4_webhook_redis_baddata (db : List RedisEntry) (now : Nat)
    (iso : String) (ttl : Nat) (e : CloudEventMessage)
    (htype : e.type = "amber.service:conversation:message")
    (hex : rexists db now (k_event e.id) = false) (hdt : e.data.type ≠ "text") :
    tech4_webhook_redis db now iso ttl e =
      ({ status := "ignored", reason := some "unsupported data.type",
         backend := none, service_id := none, ttl_seconds := none },
       rsetex db now (k_event e.id) ttl (RVal.str "1")) := by
  simp [tech4_webhook_redis, htype, hex, hdt]

theorem tech4_webhook_redis_accept (db : List RedisEntry) (now : Nat)
    (iso : String) (ttl : Nat) (e : CloudEventMessage)
    (htype : e.type = "amber.service:conversation:message")
    (hex : rexists db now (k_event e.id) = false) (hdt : e.data.type = "text") :
    tech4_webhook_redis db now iso ttl e =
      ({ status := "stored", reason := none, backend := some "redis",
         service_id := some e.data.serviceId, ttl_seconds := some ttl },
       rsetex (rsetex db now (k_event e.id) ttl (RVal.str "1")) now
         (k_session e.data.serviceId) ttl (RVal.json (ingestRecord e iso))) := by
  simp [tech4_webhook_redis, htype, hex, hdt, ingestRecord]

/-! ## Claims -/

/-- C1: a structured event with event type `amber.service:conversation:message`,
`data.type = "text"`, a fresh event id and `data.serviceId = s` is ingested with
a success response (`"ok"` in-memory, `"stored"` on Redis), and a subsequent
getLatest for `s` returns a stored record whose `text` equals the event's
`data.text` (read before the TTL expires in the Redis variant). -/
theorem C1_structured_ingest_roundtrip
    (st : MemState) (db : List RedisEntry) (now nowIso : String)
    (τ τq ttl : Nat) (e : CloudEventMessage) (t : String)
    (htype : e.type = "amber.service:conversation:message")
    (hdt : e.data.type = "text")
    (htext : e.data.text = some t)
    (hfresh : e.id ∉ st.processed)
    (hfreshR : rexists db τ (k_event e.id) = false)
    (hq : τq < τ + ttl) :
    ((tech4_webhook st now e).1.status = "ok" ∧
      ∃ r, get_latest_event_or_404 (tech4_webhook st now e).2 e.data.serviceId
          = some r ∧ r.text = t) ∧
    ((tech4_webhook_redis db τ nowIso ttl e).1.status = "stored" ∧
      ∃ r, get_latest_session_redis (tech4_webhook_redis db τ nowIso ttl e).2 τq
          e.data.serviceId = some (RVal.json r) ∧ r.text = t) := by
  have hrec : pyTextOr e.data.text = t := by rw [htext, pyTextOr_some]
  have hmem : tech4_webhook st now e =
      ({ status := "ok", reason := none },
       { store := dictInsert st.store e.data.serviceId (ingestRecord e now),
         processed := e.id :: st.processed }) := by
    simp [tech4_webhook, htype, hfresh, hdt, ingestRecord]
  have hred : tech4_webhook_redis db τ nowIso ttl e =
      ({ status := "stored", reason := none, backend := some "redis",
         service_id := some e.data.serviceId, ttl_seconds := some ttl },
       rsetex (rsetex db τ (k_event e.id) ttl (RVal.str "1")) τ
         (k_session e.data.serviceId) ttl (RVal.json (ingestRecord e nowIso))) := by
    simp [tech4_webhook_redis, htype, hfreshR, hdt, ingestRecord]
  refine ⟨⟨by rw [hmem], ?_⟩, ⟨by rw [hred], ?_⟩⟩
  · refine ⟨ingestRecord e now, ?_, hrec⟩
    rw [hmem]
    simp [get_latest_event_or_404, dictGet_insert_self]
  · refine ⟨ingestRecord e nowIso, ?_, hrec⟩
    rw [hred]
    simp [get_latest_session_redis, rget_rsetex_self, hq]

/-- C1 witness: the spec's §8 scenario at concrete inputs. -/
theorem C1_witness :
    ((tech4_webhook mem0 "t0" evGood).1.status = "ok" ∧
      ∃ r, get_latest_event_or_404 (tech4_webhook mem0 "t0" evGood).2
          evGood.data.serviceId = some r ∧ r.text = "hi") ∧
    ((tech4_webhook_redis [] 0 "t0" REDIS_TTL_SECONDS evGood).1.status = "stored" ∧
      ∃ r, get_latest_session_redis
          (tech4_webhook_redis [] 0 "t0" REDIS_TTL_SECONDS evGood).2 5
          evGood.data.serviceId = some (RVal.json r) ∧ r.text = "hi") :=
  C1_structured_ingest_roundtrip mem0 [] "t0" "t0" 0 5 REDIS_TTL_SECONDS evGood "hi"
    (by decide) (by decide) (by decide) (by decide) (by decide) (by decide)

/-- C2 counterexample: two structured events share event id `e1`, but the
first carries an unsupported event type and is therefore never marked; the
second is then stored with status `"ok"` instead of being ignored as a
duplicate, and the store changes. -/
theorem C2_counterexample :
    (tech4_webhook (tech4_webhook mem0 "t1" evBadType).2 "t2" evGood).1 =
        { status := "ok", reason := none } ∧
    (tech4_webhook (tech4_webhook mem0 "t1" evBadType).2 "t2" evGood).2 ≠
        (tech4_webhook mem0 "t1" evBadType).2 := by
  decide

/-- C2 (amended): for two structured events with identical event id where
BOTH carry the supported event type and the first's id is not already
marked, ingesting the first then the second yields, for the second, status
`"ignored"` with reason `"duplicate event"`, and the second ingestion
leaves the whole state unchanged (so the stored record reflects only the
first event), in both variants. -/
theorem C2_duplicate_suppressed
    (st : MemState) (db : List RedisEntry) (now1 now2 iso1 iso2 : String)
    (τ1 τ2 ttl : Nat) (e1 e2 : CloudEventMessage)
    (hid : e2.id = e1.id)
    (htype1 : e1.type = "amber.service:conversation:message")
    (htype2 : e2.type = "amber.service:conversation:message")
    (hfresh : e1.id ∉ st.processed)
    (hfreshR : rexists db τ1 (k_event e1.id) = false)
    (hτ : τ2 < τ1 + ttl) :
    ((tech4_webhook (tech4_webhook st now1 e1).2 now2 e2).1 =
        { status := "ignored", reason := some "duplicate event" } ∧
      (tech4_webhook (tech4_webhook st now1 e1).2 now2 e2).2 =
        (tech4_webhook st now1 e1).2) ∧
    ((tech4_webhook_redis (tech4_webhook_redis db τ1 iso1 ttl e1).2 τ2 iso2 ttl e2).1 =
        { status := "ignored", reason := some "duplicate event",
          backend := none, service_id := none, ttl_seconds := none } ∧
      (tech4_webhook_redis (tech4_webhook_redis db τ1 iso1 ttl e1).2 τ2 iso2 ttl e2).2 =
        (tech4_webhook_redis db τ1 iso1 ttl e1).2) := by
  have hproc : (tech4_webhook st now1 e1).2.processed = e1.id :: st.processed := by
    by_cases hdt : e1.data.type = "text"
    · rw [tech4_webhook_accept st now1 e1 htype1 hfresh hdt]
    · rw [tech4_webhook_baddata st now1 e1 htype1 hfresh hdt]
  have hin : e2.id ∈ (tech4_webhook st now1 e1).2.processed := by
    rw [hproc, hid]
    exact List.mem_cons_self _ _
  have hmem2 := tech4_webhook_dup (tech4_webhook st now1 e1).2 now2 e2 htype2 hin
  have hmark : rget (tech4_webhook_redis db τ1 iso1 ttl e1).2 τ2 (k_event e1.id) =
      some (RVal.str "1") := by
    by_cases hdt : e1.data.type = "text"
    · rw [tech4_webhook_redis_accept db τ1 iso1 ttl e1 htype1 hfreshR hdt]
      rw [rget_rsetex_ne _ _ _ _ _ _ _ (k_event_ne_k_session _ _)]
      rw [rget_rsetex_self]
      simp [hτ]
    · rw [tech4_webhook_redis_baddata db τ1 iso1 ttl e1 htype1 hfreshR hdt]
      rw [rget_rsetex_self]
      simp [hτ]
  have hex : rexists (tech4_webhook_redis db τ1 iso1 ttl e1).2 τ2 (k_event e2.id) = true := by
    rw [hid]
    simp [rexists, hmark]
  have hred2 := tech4_webhook_redis_dup (tech4_webhook_redis db τ1 iso1 ttl e1).2
    τ2 iso2 ttl e2 htype2 hex
  exact ⟨⟨by rw [hmem2], by rw [hmem2]⟩, ⟨by rw [hred2], by rw [hred2]⟩⟩

/-- C2 witness: ingesting the scenario event and then a second event with
the same id `e1` but different data yields the duplicate response. -/
theorem C2_witness :
    (tech4_webhook (tech4_webhook mem0 "t1" evGood).2 "t2" evGood2).1 =
      { status := "ignored", reason := some "duplicate event" } :=
  (C2_duplicate_suppressed mem0 [] "t1" "t2" "t1" "t2" 0 5 86400 evGood evGood2
    (by decide) (by decide) (by decide) (by decide) (by decide) (by decide)).1.1

/-- After accepting the event-type and duplicate checks, the in-memory
handler marks the event id, whatever `data.type` is. -/
theorem mem_processed_after (st : MemState) (now : String) (e : CloudEventMessage)
    (htype : e.type = "amber.service:conversation:message")
    (hfresh : e.id ∉ st.processed) :
    (tech4_webhook st now e).2.processed = e.id :: st.processed := by
  by_cases hdt : e.data.type = "text"
  · rw [tech4_webhook_accept st now e htype hfresh hdt]
  · rw [tech4_webhook_baddata st now e htype hfresh hdt]

/-- After accepting the event-type and duplicate checks, the Redis handler
has written the idempotency mark with TTL `ttl`, whatever `data.type` is. -/
theorem redis_mark_written (db : List RedisEntry) (τ τ' : Nat) (iso : String)
    (ttl : Nat) (e : CloudEventMessage)
    (htype : e.type = "amber.service:conversation:message")
    (hfreshR : rexists db τ (k_event e.id) = false) (hτ : τ' < τ + ttl) :
    rget (tech4_webhook_redis db τ iso ttl e).2 τ' (k_event e.id) =
      some (RVal.str "1") := by
  by_cases hdt : e.data.type = "text"
  · rw [tech4_webhook_redis_accept db τ iso ttl e htype hfreshR hdt]
    rw [rget_rsetex_ne _ _ _ _ _ _ _ (k_event_ne_k_session _ _)]
    rw [rget_rsetex_self]
    simp [hτ]
  · rw [tech4_webhook_redis_baddata db τ iso ttl e htype hfreshR hdt]
    rw [rget_rsetex_self]
    simp [hτ]

/-- C3 counterexample: the event `evImage` (supported event type, fresh id
`e9`, but `data.type = "image"`) fails the data.type check, yet ingestion
marks its event id — the idempotency state does change. -/
theorem C3_counterexample :
    (tech4_webhook mem0 "t" evImage).1 = { status := "ignored", reason := none } ∧
    "e9" ∈ (tech4_webhook mem0 "t" evImage).2.processed := by
  decide

/-- C3 (amended): the idempotency mark is written exactly when the event
passes the event-type and duplicate checks, regardless of the `data.type`
check: events failing the event-type or duplicate checks leave the state
unchanged, and any event passing those two checks marks its id (in the
Redis variant, with TTL `ttl`), even when `data.type` is unsupported. -/
theorem C3_mark_on_first_two_checks
    (st : MemState) (db : List RedisEntry) (now iso : String) (τ τ' ttl : Nat)
    (e : CloudEventMessage) :
    (e.type ≠ "amber.service:conversation:message" →
      (tech4_webhook st now e).2 = st) ∧
    (e.type = "amber.service:conversation:message" → e.id ∈ st.processed →
      (tech4_webhook st now e).2 = st) ∧
    (e.type = "amber.service:conversation:message" → e.id ∉ st.processed →
      (tech4_webhook st now e).2.processed = e.id :: st.processed) ∧
    (e.type ≠ "amber.service:conversation:message" →
      (tech4_webhook_redis db τ iso ttl e).2 = db) ∧
    (e.type = "amber.service:conversation:message" →
      rexists db τ (k_event e.id) = true →
      (tech4_webhook_redis db τ iso ttl e).2 = db) ∧
    (e.type = "amber.service:conversation:message" →
      rexists db τ (k_event e.id) = false → τ' < τ + ttl →
      rget (tech4_webhook_redis db τ iso ttl e).2 τ' (k_event e.id) =
        some (RVal.str "1")) := by
  refine ⟨?_, ?_, ?_, ?_, ?_, ?_⟩
  · intro h
    rw [tech4_webhook_badtype st now e h]
  · intro h1 h2
    rw [tech4_webhook_dup st now e h1 h2]
  · intro h1 h2
    exact mem_processed_after st now e h1 h2
  · intro h
    rw [tech4_webhook_redis_badtype db τ iso ttl e h]
  · intro h1 h2
    rw [tech4_webhook_redis_dup db τ iso ttl e h1 h2]
  · intro h1 h2 h3
    exact redis_mark_written db τ τ' iso ttl e h1 h2 h3

/-- C3 witness: the amended claim at the `evImage` event (which fails the
data.type check) on the empty states. -/
theorem C3_witness :
    (tech4_webhook mem0 "t" evImage).2.processed = "e9" :: mem0.processed ∧
    rget (tech4_webhook_redis [] 0 "t" 86400 evImage).2 5 (k_event "e9") =
      some (RVal.str "1") :=
  ⟨(C3_mark_on_first_two_checks mem0 [] "t" "t" 0 5 86400 evImage).2.2.1
      (by decide) (by decide),
   (C3_mark_on_first_two_checks mem0 [] "t" "t" 0 5 86400 evImage).2.2.2.2.2
      (by decide) (by decide) (by decide)⟩

/-- C4 counterexample: the in-memory variant acknowledges an event of
unsupported type as `{"status": "ignored"}` with NO reason key. -/
theorem C4_counterexample :
    (tech4_webhook mem0 "t" evBadType).1.status = "ignored" ∧
    (tech4_webhook mem0 "t" evBadType).1.reason = none := by
  decide

/-- C4 (amended): every failing check yields an acknowledgement, never an
error; in the Redis variant every ignored response carries a reason drawn
from {"unsupported type", "duplicate event", "unsupported data.type"}, but
in the in-memory variant only the duplicate check carries a reason
("duplicate event") — the event-type and data.type failures are
acknowledged as bare `{"status": "ignored"}`. -/
theorem C4_ack_with_reason (st : MemState) (db : List RedisEntry)
    (now iso : String) (τ ttl : Nat) (e : CloudEventMessage) :
    ((tech4_webhook_redis db τ iso ttl e).1.status = "stored" ∨
      ((tech4_webhook_redis db τ iso ttl e).1.status = "ignored" ∧
        ((tech4_webhook_redis db τ iso ttl e).1.reason = some "unsupported type" ∨
         (tech4_webhook_redis db τ iso ttl e).1.reason = some "duplicate event" ∨
         (tech4_webhook_redis db τ iso ttl e).1.reason = some "unsupported data.type"))) ∧
    ((tech4_webhook st now e).1 = { status := "ok", reason := none } ∨
      (tech4_webhook st now e).1 = { status := "ignored", reason := none } ∨
      (tech4_webhook st now e).1 = { status := "ignored", reason := some "duplicate event" }) := by
  constructor
  · by_cases h1 : e.type = "amber.service:conversation:message"
    · by_cases h2 : rexists db τ (k_event e.id) = true
      · rw [tech4_webhook_redis_dup db τ iso ttl e h1 h2]
        exact Or.inr ⟨rfl, Or.inr (Or.inl rfl)⟩
      · have h2' : rexists db τ (k_event e.id) = false := by simpa using h2
        by_cases h3 : e.data.type = "text"
        · rw [tech4_webhook_redis_accept db τ iso ttl e h1 h2' h3]
          exact Or.inl rfl
        · rw [tech4_webhook_redis_baddata db τ iso ttl e h1 h2' h3]
          exact Or.inr ⟨rfl, Or.inr (Or.inr rfl)⟩
    · rw [tech4_webhook_redis_badtype db τ iso ttl e h1]
      exact Or.inr ⟨rfl, Or.inl rfl⟩
  · by_cases h1 : e.type = "amber.service:conversation:message"
    · by_cases h2 : e.id ∈ st.processed
      · rw [tech4_webhook_dup st now e h1 h2]
        exact Or.inr (Or.inr rfl)
      · by_cases h3 : e.data.type = "text"
        · rw [tech4_webhook_accept st now e h1 h2 h3]
          exact Or.inl rfl
        · rw [tech4_webhook_baddata st now e h1 h2 h3]
          exact Or.inr (Or.inl rfl)
    · rw [tech4_webhook_badtype st now e h1]
      exact Or.inr (Or.inl rfl)

/-- C5 counterexample: the in-memory write path stores records and marks
with no TTL at all: the record ingested into `mem0` is still returned by a
lookup one second after the system's default TTL (86400 s) has elapsed —
the in-memory code never consults a clock, so no amount of elapsed time
makes its entries not-found. -/
theorem C5_counterexample :
    mem_lookup_at memAfterGood "svc1" (REDIS_TTL_SECONDS + 1) =
      some (ingestRecord evGood "t0") ∧
    "e1" ∈ memAfterGood.processed := by
  decide

/-- C5 (amended): in the Redis variant every accepted ingestion writes both
the StoredRecord and the IdempotencyMark with TTL `ttl`: each is
retrievable at any instant strictly before write-time + ttl and not-found
(indistinguishable from never stored) from write-time + ttl on.  The
in-memory variant's records and marks carry no TTL (counterexample). -/
theorem C5_redis_ttl_expiry (db : List RedisEntry) (τ τa τb ttl : Nat)
    (iso : String) (e : CloudEventMessage)
    (htype : e.type = "amber.service:conversation:message")
    (hfreshR : rexists db τ (k_event e.id) = false)
    (hdt : e.data.type = "text")
    (ha : τa < τ + ttl) (hb : τ + ttl ≤ τb) :
    rget (tech4_webhook_redis db τ iso ttl e).2 τa (k_event e.id) =
      some (RVal.str "1") ∧
    get_latest_session_redis (tech4_webhook_redis db τ iso ttl e).2 τa
      e.data.serviceId = some (RVal.json (ingestRecord e iso)) ∧
    rget (tech4_webhook_redis db τ iso ttl e).2 τb (k_event e.id) = none ∧
    get_latest_session_redis (tech4_webhook_redis db τ iso ttl e).2 τb
      e.data.serviceId = none := by
  have hacc := tech4_webhook_redis_accept db τ iso ttl e htype hfreshR hdt
  have hnb : ¬ τb < τ + ttl := by omega
  refine ⟨?_, ?_, ?_, ?_⟩
  · rw [hacc]
    rw [rget_rsetex_ne _ _ _ _ _ _ _ (k_event_ne_k_session _ _), rget_rsetex_self]
    simp [ha]
  · rw [hacc]
    simp only [get_latest_session_redis]
    rw [rget_rsetex_self]
    simp [ha]
  · rw [hacc]
    rw [rget_rsetex_ne _ _ _ _ _ _ _ (k_event_ne_k_session _ _), rget_rsetex_self]
    simp [hnb]
  · rw [hacc]
    simp only [get_latest_session_redis]
    rw [rget_rsetex_self]
    simp [hnb]

/-- C5 witness: the amended Redis TTL claim at the scenario event, written
at instant 0 with the default TTL: live at 86399, gone at 86400. -/
theorem C5_witness :
    rget (tech4_webhook_redis [] 0 "t0" REDIS_TTL_SECONDS evGood).2 86399
        (k_event evGood.id) = some (RVal.str "1") ∧
    get_latest_session_redis (tech4_webhook_redis [] 0 "t0" REDIS_TTL_SECONDS evGood).2
        86399 evGood.data.serviceId = some (RVal.json (ingestRecord evGood "t0")) ∧
    rget (tech4_webhook_redis [] 0 "t0" REDIS_TTL_SECONDS evGood).2 86400
        (k_event evGood.id) = none ∧
    get_latest_session_redis (tech4_webhook_redis [] 0 "t0" REDIS_TTL_SECONDS evGood).2
        86400 evGood.data.serviceId = none :=
  C5_redis_ttl_expiry [] 0 86399 86400 REDIS_TTL_SECONDS "t0" evGood
    (by decide) (by decide) (by decide) (by decide) (by decide)

/-- A one-record in-memory state, as left by ingesting the scenario event. -/
def memOne : MemState :=
  { store := [("svc1", ingestRecord evGood "t0")], processed := ["e1"] }

/-- A one-entry Redis database holding a live session record. -/
def dbOne : List RedisEntry :=
  [{ key := k_session "svc1", val := RVal.json (ingestRecord evGood "t0"),
     expireAt := 86400 }]

/-- C6: delete is idempotent-safe in both variants: deleting a key with no
stored state signals not-found (404) and leaves the state unchanged; for a
stored key, the first delete reports `deleted` and the second reports
not-found. -/
theorem C6_delete_idempotent_safe (st : MemState) (db : List RedisEntry)
    (sid : String) (τ1 τ2 : Nat) :
    (get_latest_event_or_404 st sid = none →
      delete_session st sid = (DeleteResult.notFound, st)) ∧
    (∀ r, dictGet st.store sid = some r →
      (delete_session st sid).1 = DeleteResult.deleted sid ∧
      (delete_session (delete_session st sid).2 sid).1 = DeleteResult.notFound) ∧
    (rget db τ1 (k_session sid) = none →
      (delete_session_redis db τ1 sid).1 = DeleteResult.notFound) ∧
    (∀ v, rget db τ1 (k_session sid) = some v →
      (delete_session_redis db τ1 sid).1 = DeleteResult.deleted sid ∧
      (delete_session_redis (delete_session_redis db τ1 sid).2 τ2 sid).1 =
        DeleteResult.notFound) := by
  refine ⟨?_, ?_, ?_, ?_⟩
  · intro h
    simp only [get_latest_event_or_404] at h
    simp [delete_session, h]
  · intro r hr
    refine ⟨by simp [delete_session, hr], ?_⟩
    have h1 : (delete_session st sid).2 = { st with store := dictRemove st.store sid } := by
      simp [delete_session, hr]
    rw [h1]
    simp [delete_session, dictGet_remove_self]
  · intro h
    simp [delete_session_redis, rdelete, rexists, h]
  · intro v hv
    refine ⟨by simp [delete_session_redis, rdelete, rexists, hv], ?_⟩
    have h2 : (delete_session_redis db τ1 sid).2 =
        db.filter (fun en => ! (en.key == k_session sid)) := by
      simp [delete_session_redis, rdelete, apply_ite Prod.snd]
    rw [h2]
    simp [delete_session_redis, rdelete, rexists, rget_filter_self]

/-- C6 witness: the double-delete scenario on one-record states. -/
theorem C6_witness :
    (delete_session memOne "svc1").1 = DeleteResult.deleted "svc1" ∧
    (delete_session (delete_session memOne "svc1").2 "svc1").1 =
      DeleteResult.notFound ∧
    (delete_session_redis dbOne 0 "svc1").1 = DeleteResult.deleted "svc1" ∧
    (delete_session_redis (delete_session_redis dbOne 0 "svc1").2 5 "svc1").1 =
      DeleteResult.notFound :=
  have h := C6_delete_idempotent_safe memOne dbOne "svc1" 0 5
  ⟨(h.2.1 (ingestRecord evGood "t0") (by decide)).1,
   (h.2.1 (ingestRecord evGood "t0") (by decide)).2,
   (h.2.2.2 (RVal.json (ingestRecord evGood "t0")) (by decide)).1,
   (h.2.2.2 (RVal.json (ingestRecord evGood "t0")) (by decide)).2⟩

/-- C9: `list_sessions` returns at most `clamp(limit, 1, 500)` keys (a limit
below 1 yields exactly one key when any exist, a limit above 500 at most
500), its `count` equals the number of keys returned, and the key list is a
prefix of the store's keys, which ingestion maintains in insertion order of
first write (a write to an existing key keeps its position, a first write
appends at the tail). -/
theorem C9_list_sessions_clamped (st : MemState) (limit : Int) (now : String)
    (e : CloudEventMessage) :
    (list_sessions st limit).1 = (list_sessions st limit).2.length ∧
    (list_sessions st limit).2 =
      (st.store.map Prod.fst).take (max 1 (min limit 500)).toNat ∧
    (list_sessions st limit).2.length ≤ (max 1 (min limit 500)).toNat ∧
    (limit < 1 → st.store ≠ [] → (list_sessions st limit).2.length = 1) ∧
    (500 < limit → (list_sessions st limit).2.length ≤ 500) ∧
    ((tech4_webhook st now e).2.store.map Prod.fst = st.store.map Prod.fst ∨
      (tech4_webhook st now e).2.store.map Prod.fst =
        st.store.map Prod.fst ++ [e.data.serviceId]) := by
  refine ⟨rfl, rfl, ?_, ?_, ?_, ?_⟩
  · simp [list_sessions, List.length_take]
  · intro h1 h2
    have hl : 0 < (st.store.map Prod.fst).length := by
      rw [List.length_map]
      exact List.length_pos.mpr h2
    show ((st.store.map Prod.fst).take (max 1 (min limit 500)).toNat).length = 1
    rw [List.length_take]
    have hn : (max 1 (min limit 500)).toNat = 1 := by omega
    rw [hn]
    omega
  · intro h
    show ((st.store.map Prod.fst).take (max 1 (min limit 500)).toNat).length ≤ 500
    rw [List.length_take]
    have hn : (max 1 (min limit 500)).toNat = 500 := by omega
    rw [hn]
    omega
  · by_cases h1 : e.type = "amber.service:conversation:message"
    · by_cases h2 : e.id ∈ st.processed
      · rw [tech4_webhook_dup st now e h1 h2]
        exact Or.inl rfl
      · by_cases h3 : e.data.type = "text"
        · rw [tech4_webhook_accept st now e h1 h2 h3]
          simp only
          rw [dictInsert_keys]
          by_cases h4 : (dictGet st.store e.data.serviceId).isSome <;> simp [h4]
        · rw [tech4_webhook_baddata st now e h1 h2 h3]
          exact Or.inl rfl
    · rw [tech4_webhook_badtype st now e h1]
      exact Or.inl rfl

/-- C9 witness: limit 0 on a one-key store yields exactly one key. -/
theorem C9_witness : (list_sessions memOne 0).2.length = 1 :=
  (C9_list_sessions_clamped memOne 0 "t" evGood).2.2.2.1 (by decide) (by decide)

/-- C10: for every accepted structured event, the stored record's `text`
field is the plain string `data.text or ""`: it equals `""` when
`data.text` is absent (None) or empty, and equals `data.text` verbatim
otherwise — it is a `String`, never null, in both variants. -/
theorem C10_stored_text_never_null (st : MemState) (db : List RedisEntry)
    (now iso : String) (τ ttl : Nat) (e : CloudEventMessage)
    (htype : e.type = "amber.service:conversation:message")
    (hdt : e.data.type = "text")
    (hfresh : e.id ∉ st.processed)
    (hfreshR : rexists db τ (k_event e.id) = false)
    (httl : 0 < ttl) :
    (∃ r, dictGet (tech4_webhook st now e).2.store e.data.serviceId = some r ∧
      r.text = (e.data.text).getD "" ∧
      ((e.data.text = none ∨ e.data.text = some "") → r.text = "") ∧
      (∀ t, e.data.text = some t → r.text = t)) ∧
    (∃ r, rget (tech4_webhook_redis db τ iso ttl e).2 τ (k_session e.data.serviceId) =
        some (RVal.json r) ∧
      r.text = (e.data.text).getD "" ∧
      ((e.data.text = none ∨ e.data.text = some "") → r.text = "") ∧
      (∀ t, e.data.text = some t → r.text = t)) := by
  have htext : pyTextOr e.data.text = (e.data.text).getD "" := pyTextOr_eq_getD _
  have hempty : (e.data.text = none ∨ e.data.text = some "") →
      pyTextOr e.data.text = "" := by
    rintro (h | h) <;> simp [h, pyTextOr]
  have hverb : ∀ t, e.data.text = some t → pyTextOr e.data.text = t := by
    intro t h
    rw [h, pyTextOr_some]
  constructor
  · refine ⟨ingestRecord e now, ?_, htext, hempty, hverb⟩
    rw [tech4_webhook_accept st now e htype hfresh hdt]
    simp only
    exact dictGet_insert_self _ _ _
  · refine ⟨ingestRecord e iso, ?_, htext, hempty, hverb⟩
    rw [tech4_webhook_redis_accept db τ iso ttl e htype hfreshR hdt]
    rw [rget_rsetex_self]
    simp [httl]

/-- An accepted event whose `data.text` is absent (None). -/
def evNoText : CloudEventMessage :=
  { evGood with id := "e7", data := { dGood with text := none } }

/-- C10 witness: ingesting an event with absent text stores `text = ""`. -/
theorem C10_witness :
    ∃ r, dictGet (tech4_webhook mem0 "t" evNoText).2.store
        evNoText.data.serviceId = some r ∧ r.text = "" := by
  obtain ⟨r, hr, _, hempty, _⟩ :=
    (C10_stored_text_never_null mem0 [] "t" "t" 0 86400 evNoText
      (by decide) (by decide) (by decide) (by decide) (by decide)).1
  exact ⟨r, hr, hempty (Or.inl (by decide))⟩

/-! ## Bounded history (spec-modelled)

Modelled from the spec: the bounded-history storage shape (spec §3 "Bounded
history", §4.3 `put`, §8) belongs to the repository's history but is absent
from src/ — the Redis handler in src/ stores latest-only via `setex`.  Per
the spec, `put` appends at the tail and truncates to retain only the most
recent `N` entries (`N` configurable, default 1000), and `getAll` returns
the retained entries oldest-to-newest. -/

/-- The most recent `n` elements of an oldest-first list. -/
def lastN (n : Nat) (l : List StoredRecord) : List StoredRecord :=
  l.drop (l.length - n)

/-- Modelled from the spec: default history cap (spec §6). -/
def HISTORY_LIMIT_DEFAULT : Nat := 1000

/-- Modelled from the spec: one bounded-history `put` on a key's sequence:
append at the tail, then truncate to the last `cap` entries. -/
def historyAppend (cap : Nat) (h : List StoredRecord) (r : StoredRecord) :
    List StoredRecord :=
  lastN cap (h ++ [r])

/-- Iterated bounded-history `put` of a batch of records, oldest first. -/
def historyAppendAll (cap : Nat) (h : List StoredRecord)
    (rs : List StoredRecord) : List StoredRecord :=
  rs.foldl (historyAppend cap) h

/-- Modelled from the spec: `getAll` returns the retained entries
oldest-to-newest; the per-key sequence is kept oldest-first. -/
def historyGetAll (h : List StoredRecord) : List StoredRecord := h

theorem lastN_snoc (cap : Nat) (xs : List StoredRecord) (r : StoredRecord) :
    lastN cap (lastN cap xs ++ [r]) = lastN cap (xs ++ [r]) := by
  unfold lastN
  simp only [List.length_append, List.length_drop, List.length_cons,
    List.length_nil]
  rw [List.drop_append_eq_append_drop, List.drop_append_eq_append_drop,
    List.drop_drop]
  congr 2
  · omega
  · simp only [List.length_drop]
    omega

theorem historyAppendAll_eq (cap : Nat) (rs : List StoredRecord) :
    ∀ xs : List StoredRecord,
      historyAppendAll cap (lastN cap xs) rs = lastN cap (xs ++ rs) := by
  induction rs with
  | nil =>
    intro xs
    simp [historyAppendAll]
  | cons r rs ih =>
    intro xs
    simp only [historyAppendAll, List.foldl_cons]
    have h1 : historyAppend cap (lastN cap xs) r = lastN cap (xs ++ [r]) :=
      lastN_snoc cap xs r
    rw [h1]
    have h2 := ih (xs ++ [r])
    simp only [historyAppendAll] at h2
    rw [h2, List.append_assoc]
    rfl

/-- C7: the retained sequence never exceeds the cap; appending `cap + 5`
records to one key (starting empty) retains exactly `cap` entries,
truncation discards the oldest 5 first (FIFO from the head), and `getAll`
returns the retained suffix oldest-to-newest. -/
theorem C7_bounded_history (cap : Nat) (h : List StoredRecord)
    (r : StoredRecord) (rs : List StoredRecord) (hlen : rs.length = cap + 5) :
    (historyAppend cap h r).length ≤ cap ∧
    historyGetAll (historyAppendAll cap [] rs) = rs.drop 5 ∧
    (historyAppendAll cap [] rs).length = cap := by
  have hall : historyAppendAll cap [] rs = lastN cap rs := by
    have h0 := historyAppendAll_eq cap rs []
    simpa [lastN] using h0
  refine ⟨?_, ?_, ?_⟩
  · simp only [historyAppend, lastN, List.length_drop, List.length_append,
      List.length_cons, List.length_nil]
    omega
  · rw [historyGetAll, hall, lastN, hlen]
    congr 1
    omega
  · rw [hall, lastN, List.length_drop, hlen]
    omega

/-- A batch of seven records for the `cap = 2` bounded-history scenario. -/
def rec7 : List StoredRecord := List.replicate 7 (ingestRecord evGood "t0")

/-- C7 witness: appending 7 records with cap 2 retains exactly the last 2,
and `getAll` returns them oldest-to-newest. -/
theorem C7_witness :
    historyGetAll (historyAppendAll 2 [] rec7) = rec7.drop 5 ∧
    (historyAppendAll 2 [] rec7).length = 2 :=
  ⟨(C7_bounded_history 2 [] (ingestRecord evGood "t0") rec7 (by decide)).2.1,
   (C7_bounded_history 2 [] (ingestRecord evGood "t0") rec7 (by decide)).2.2⟩

/-! ## Correlation Key Deriver (spec-modelled)

Modelled from the spec: the Correlation Key Deriver and the open/generic
ingestion path (spec §4.1, §4.4, §3 invariants) belong to the repository's
history but are absent from src/ — the structured handlers in src/ key
directly on the required `data.serviceId` field.  Per spec §4.1 the deriver
evaluates candidate sources in fixed priority order (nested
`data.serviceId`, then top-level `session_id`, then `id`, then `to`),
taking the first non-empty string, with the sentinel `"unknown"` as
fallback; a non-mapping root is first wrapped as `{"payload": original}`. -/

/-- A JSON-like inbound payload tree. -/
inductive Payload where
  | obj (fields : List (String × Payload))
  | str (s : String)
  | num (n : Int)
  | arr (items : List Payload)
  | null

/-- Whether the payload root is a mapping. -/
def isMapping : Payload → Bool
  | Payload.obj _ => true
  | _ => false

/-- Field lookup in a mapping's field list (first occurrence). -/
def objGet (fields : List (String × Payload)) (key : String) : Option Payload :=
  match fields with
  | [] => none
  | (k, v) :: rest => if k = key then some v else objGet rest key

/-- A candidate is usable only when it is a non-empty string. -/
def asUsableString (p : Option Payload) : Option String :=
  match p with
  | some (Payload.str s) => if s = "" then none else some s
  | _ => none

/-- Modelled from the spec: the sentinel correlation key (spec §3, §4.1). -/
def SENTINEL_KEY : String := "unknown"

/-- Modelled from the spec: normalization of a non-mapping root to
`{"payload": original}` before key derivation and storage (spec §4.1). -/
def normalizePayload (p : Payload) : List (String × Payload) :=
  match p with
  | Payload.obj fields => fields
  | other => [("payload", other)]

/-- Modelled from the spec: the prioritized candidate sources of §4.1,
first non-empty result wins. -/
def keyCandidates (fields : List (String × Payload)) : Option String :=
  match asUsableString
      (match objGet fields "data" with
       | some (Payload.obj d) => objGet d "serviceId"
       | _ => none) with
  | some s => some s
  | none =>
    match asUsableString (objGet fields "session_id") with
    | some s => some s
    | none =>
      match asUsableString (objGet fields "id") with
      | some s => some s
      | none => asUsableString (objGet fields "to")

/-- Modelled from the spec: full key derivation — normalize, try the
candidates, fall back to the sentinel. -/
def deriveKey (p : Payload) : String :=
  match keyCandidates (normalizePayload p) with
  | some s => s
  | none => SENTINEL_KEY

/-- C8: a payload with no derivable correlation key deterministically gets
the sentinel key `"unknown"` (never the empty string, and a `String` value,
never null), and a payload whose root is not a mapping is wrapped as
`{"payload": original}` before key derivation and storage. -/
theorem C8_key_sentinel_and_wrapping (p q : Payload)
    (hp : keyCandidates (normalizePayload p) = none)
    (hq : isMapping q = false) :
    deriveKey p = "unknown" ∧ "unknown" ≠ "" ∧
    normalizePayload q = [("payload", q)] ∧
    deriveKey q = deriveKey (Payload.obj [("payload", q)]) := by
  refine ⟨?_, by decide, ?_, ?_⟩
  · simp [deriveKey, hp, SENTINEL_KEY]
  · cases q with
    | obj fields => simp [isMapping] at hq
    | str s => rfl
    | num n => rfl
    | arr items => rfl
    | null => rfl
  · cases q with
    | obj fields => simp [isMapping] at hq
    | str s => rfl
    | num n => rfl
    | arr items => rfl
    | null => rfl

/-- C8 witness: a mapping with no derivable key gets `"unknown"`, and a
bare string root is wrapped under `"payload"`. -/
theorem C8_witness :
    deriveKey (Payload.obj [("foo", Payload.str "x")]) = "unknown" ∧
    normalizePayload (Payload.str "hello") =
      [("payload", Payload.str "hello")] :=
  have h := C8_key_sentinel_and_wrapping (Payload.obj [("foo", Payload.str "x")])
    (Payload.str "hello") (by decide) (by decide)
  ⟨h.1, h.2.2.1⟩
